import Mathlib

/-!
Verification development for the `libcctools` network monitor
(`src/network.c`, `src/network.h`).

The C module is shallowly embedded: the `NetworkMonitor` struct becomes a
Lean structure, each C function becomes a Lean function over that structure,
and every interaction with the operating system (socket creation, `connect`,
`ioctl`, `/proc/net/route` contents, `errno` values) is supplied through an
explicit environment record, since those outcomes are inputs to the control
flow being verified.  Machine `int`s are modelled as `Int` (no arithmetic in
the module ever overflows 32 bits), C strings as `String` with explicit
`strncpy`-style truncation.
-/

namespace NetworkC

/-- Truncating copy: models `strncpy(dst, src, n); dst[n] = 0` for a
destination buffer of `n + 1` bytes, i.e. keeping at most `n` characters. -/
def strcap (n : Nat) (s : String) : String :=
  ⟨s.toList.take n⟩

/-- Model of the C `WanServer` struct: a host string (256-byte buffer)
and a port. -/
structure WanServer where
  host : String
  port : Int
deriving DecidableEq

/-- The fixed-capacity array `WanServer wan_servers[MAX_WAN_SERVERS]` with
`MAX_WAN_SERVERS = 4`, modelled with one field per slot. -/
structure WanServers where
  s0 : WanServer
  s1 : WanServer
  s2 : WanServer
  s3 : WanServer
deriving DecidableEq

/-- Model of the C `NetworkMonitor` struct (the pthread handle and the mutex
are not data; the lock discipline is modelled separately in the `LockModel`
section). -/
structure NetworkMonitor where
  timeout_ms : Int
  check_interval_sec : Int
  proxy_url : String
  wan_servers : WanServers
  num_wan_servers : Nat
  lan_interface : String
  wan_up : Bool
  lan_up : Bool
  last_check_time : Int
  last_error : Int
  running : Bool
deriving DecidableEq

/-- `IF_NAMESIZE` on Linux. -/
def IF_NAMESIZE : Nat := 16

-- --- Configuration mutators (network.c lines 397-470) ---

/-- `set_timeout_ms`: `mon->timeout_ms = (ms > 0) ? ms : 1000;`. -/
def set_timeout_ms (mon : NetworkMonitor) (ms : Int) : NetworkMonitor :=
  { mon with timeout_ms := if ms > 0 then ms else 1000 }

/-- `set_check_interval_sec`: `mon->check_interval_sec = (sec > 0) ? sec : 5;`. -/
def set_check_interval_sec (mon : NetworkMonitor) (sec : Int) : NetworkMonitor :=
  { mon with check_interval_sec := if sec > 0 then sec else 5 }

/-- `set_proxy`: `strncpy(mon->proxy_url, proxy_url ? proxy_url : "", 255)`;
a NULL argument is modelled as `none`. -/
def set_proxy (mon : NetworkMonitor) (proxy_url : Option String) : NetworkMonitor :=
  { mon with proxy_url := strcap 255 (proxy_url.getD "") }

/-- `set_wan_test_host`:
`strncpy(mon->wan_servers[0].host, host ? host : "8.8.8.8", 255)`. -/
def set_wan_test_host (mon : NetworkMonitor) (host : Option String) : NetworkMonitor :=
  { mon with wan_servers :=
      { mon.wan_servers with
          s0 := { mon.wan_servers.s0 with host := strcap 255 (host.getD "8.8.8.8") } } }

/-- `set_wan_test_port`: `mon->wan_servers[0].port = (port > 0) ? port : 53;`. -/
def set_wan_test_port (mon : NetworkMonitor) (port : Int) : NetworkMonitor :=
  { mon with wan_servers :=
      { mon.wan_servers with
          s0 := { mon.wan_servers.s0 with port := if port > 0 then port else 53 } } }

/-- `set_lan_interface`:
`strncpy(mon->lan_interface, iface ? iface : "eth0", IF_NAMESIZE - 1)`. -/
def set_lan_interface (mon : NetworkMonitor) (iface : Option String) : NetworkMonitor :=
  { mon with lan_interface := strcap (IF_NAMESIZE - 1) (iface.getD "eth0") }

-- --- WAN probe (network.c lines 132-167) ---

/-- Environment for `check_wan`: outcomes of the OS calls made while probing
server `i`.  `sockOk i` is whether `socket()` returns a valid fd on the
iteration for server `i` (`sockErr i` is `errno` when it does not);
`ptonOk i` is whether `inet_pton` accepts the host string; `connectOk i r`
is whether the `connect` call on retry `r` returns 0. -/
structure WanEnv where
  sockOk : Nat → Bool
  sockErr : Nat → Int
  ptonOk : Nat → Bool
  ptonErr : Nat → Int
  connectOk : Nat → Nat → Bool
  connectErr : Nat → Nat → Int

/-- Observable events of a `check_wan` run: a `connect` attempt on server
`i`, retry `r`, with its outcome, and a `usleep` backoff of `usec`
microseconds taken after a failed attempt on server `i`. -/
inductive WanEvent where
  | attempt (server retry : Nat) (ok : Bool)
  | backoff (server : Nat) (usec : Nat)
deriving DecidableEq

/-- Is the event a successful `connect` attempt? -/
def WanEvent.isSucc : WanEvent → Bool
  | .attempt _ _ ok => ok
  | .backoff _ _ => false

/-- The server an event belongs to. -/
def WanEvent.server : WanEvent → Nat
  | .attempt i _ _ => i
  | .backoff i _ => i

/-- The retry loop `for (retry = 0; retry < 3; retry++)` of `check_wan`,
on server `i` with current `last_error` value `e`; `r` is the current retry
index and `fuel` the number of iterations left (`3 - r`).  On success
(`connect(...) == 0`) the socket is closed, `last_error` is set to 0 and the
whole check returns true; on failure `last_error := errno` and a backoff of
`100000 << retry` microseconds is slept. -/
def connectRetries (env : WanEnv) (i : Nat) (e : Int) :
    Nat → Nat → Bool × Int × List WanEvent
  | _, 0 => (false, e, [])
  | r, fuel + 1 =>
    if env.connectOk i r then
      (true, 0, [WanEvent.attempt i r true])
    else
      let rest := connectRetries env i (env.connectErr i r) (r + 1) fuel
      (rest.1, rest.2.1,
        WanEvent.attempt i r false :: WanEvent.backoff i (100000 <<< r) :: rest.2.2)

/-- One iteration of `check_wan`'s outer server loop for server `i`:
socket creation failure and address-parse failure each record `errno` and
move on to the next server without any connect attempt; otherwise the
three-retry connect loop runs. -/
def tryServer (env : WanEnv) (i : Nat) (e : Int) : Bool × Int × List WanEvent :=
  if env.sockOk i then
    if env.ptonOk i then
      connectRetries env i e 0 3
    else
      (false, env.ptonErr i, [])
  else
    (false, env.sockErr i, [])

/-- The outer loop `for (i = 0; i < num_wan_servers; i++)` of `check_wan`,
starting at server `i` with `last_error` value `e`; `fuel` bounds the
remaining iterations (any `fuel ≥ n - i` gives the loop's behaviour). -/
def checkWanFrom (env : WanEnv) (n : Nat) :
    Nat → Int → Nat → Bool × Int × List WanEvent
  | _, e, 0 => (false, e, [])
  | i, e, fuel + 1 =>
    if i < n then
      let t := tryServer env i e
      if t.1 then t
      else
        let rest := checkWanFrom env n (i + 1) t.2.1 fuel
        (rest.1, rest.2.1, t.2.2 ++ rest.2.2)
    else
      (false, e, [])

/-- `check_wan`: probes the `num_wan_servers` configured servers in list
order; returns whether any succeeded, the monitor with its updated
`last_error`, and the trace of connect attempts and backoffs. -/
def check_wan (env : WanEnv) (mon : NetworkMonitor) :
    Bool × NetworkMonitor × List WanEvent :=
  let r := checkWanFrom env mon.num_wan_servers 0 mon.last_error mon.num_wan_servers
  (r.1, { mon with last_error := r.2.1 }, r.2.2)

/-- Whether probing server `i` would succeed: the socket opens, the address
parses, and some one of the three connect retries succeeds. -/
def serverSucc (env : WanEnv) (i : Nat) : Bool :=
  env.sockOk i && (env.ptonOk i && (List.range 3).any fun r => env.connectOk i r)

/-- The sequence of error codes recorded by a run of `check_wan` in which
server `i` fails completely (used to characterise the final `last_error`
of an all-fail run as the most recent failure code). -/
def serverFailCodes (env : WanEnv) (i : Nat) : List Int :=
  if env.sockOk i then
    if env.ptonOk i then (List.range 3).map (env.connectErr i)
    else [env.ptonErr i]
  else [env.sockErr i]

/-- All failure codes recorded from server `i` on, when every server fails. -/
def failCodesFrom (env : WanEnv) (n : Nat) : Nat → Nat → List Int
  | _, 0 => []
  | i, fuel + 1 =>
    if i < n then serverFailCodes env i ++ failCodesFrom env n (i + 1) fuel
    else []

/-- The last element of a list, or `d` when the list is empty. -/
def lastD (l : List Int) (d : Int) : Int :=
  l.foldl (fun _ x => x) d

-- --- LAN probe (network.c lines 177-198) ---

/-- Linux `IFF_UP`. -/
def IFF_UP : Nat := 0x1

/-- Linux `IFF_RUNNING`. -/
def IFF_RUNNING : Nat := 0x40

/-- Environment for `check_lan`: whether `socket()` and
`ioctl(SIOCGIFFLAGS)` succeed, their `errno` values when they do not, and
the interface flag bitset the ioctl reports. -/
structure LanEnv where
  sockOk : Bool
  sockErr : Int
  ioctlOk : Bool
  ioctlErr : Int
  ifr_flags : Nat

/-- `check_lan`: LAN is up iff the flags query succeeds and both `IFF_UP`
and `IFF_RUNNING` are set; `last_error` is cleared only on an UP result
(`mon->last_error = up ? 0 : mon->last_error`). -/
def check_lan (env : LanEnv) (mon : NetworkMonitor) : Bool × NetworkMonitor :=
  if env.sockOk then
    if env.ioctlOk then
      let up := decide (env.ifr_flags &&& IFF_UP ≠ 0) &&
                decide (env.ifr_flags &&& IFF_RUNNING ≠ 0)
      (up, { mon with last_error := if up then 0 else mon.last_error })
    else
      (false, { mon with last_error := env.ioctlErr })
  else
    (false, { mon with last_error := env.sockErr })

-- --- Interface auto-detection (network.c lines 90-123) ---

/-- Linux `RTF_UP`. -/
def RTF_UP : Nat := 0x0001

/-- Linux `RTF_GATEWAY`. -/
def RTF_GATEWAY : Nat := 0x0002

/-- A parsed `/proc/net/route` line: interface name, destination, gateway
and flags (the latter three parsed as hex by `sscanf`). -/
structure RouteEntry where
  iface : String
  dest : Nat
  gw : Nat
  flags : Nat
deriving DecidableEq

/-- A line of `/proc/net/route` as seen by the parsing loop: `none` when
`sscanf(line, "%s %lx %lx %lx", ...) != 4` (e.g. the header line). -/
abbrev RouteLine := Option RouteEntry

/-- The qualification test of `detect_lan_interface`:
`dest == 0 && (flags & RTF_GATEWAY) && (flags & RTF_UP) && gw != 0`. -/
def routeQualifies (e : RouteEntry) : Bool :=
  e.dest == 0 && decide (e.flags &&& RTF_GATEWAY ≠ 0) &&
    decide (e.flags &&& RTF_UP ≠ 0) && e.gw != 0

/-- The `while (fgets(...))` scan of `detect_lan_interface`: skip lines that
do not parse, stop at the first qualifying entry. -/
def detectLoop : List RouteLine → Option RouteEntry
  | [] => none
  | none :: rest => detectLoop rest
  | some e :: rest => if routeQualifies e then some e else detectLoop rest

/-- `detect_lan_interface`: `tbl = none` models `fopen("/proc/net/route")`
failing with `errno = openErr`; otherwise the route lines are scanned and
the first qualifying entry's interface name is installed. -/
def detect_lan_interface (tbl : Option (List RouteLine)) (openErr : Int)
    (mon : NetworkMonitor) : Bool × NetworkMonitor :=
  match tbl with
  | none => (false, { mon with last_error := openErr })
  | some lines =>
    match detectLoop lines with
    | some e =>
      (true, { mon with lan_interface := strcap (IF_NAMESIZE - 1) e.iface,
                        last_error := 0 })
    | none => (false, { mon with last_error := 0 })

-- --- Constructor, monitor cycle, destructor (network.c lines 207-333) ---

/-- The public `NetworkConfig` struct (`network.h`); pointer-valued fields
are `Option` (`none` models NULL). -/
structure NetworkConfig where
  timeout_ms : Int
  check_interval_sec : Int
  proxy_url : Option String
  wan_test_host : Option String
  wan_test_port : Int
  lan_interface : Option String

/-- Environment for `network_monitor_new`: `malloc` outcome, the
`/proc/net/route` contents offered to auto-detection, the validation
socket's outcome, the environment of the validation `check_lan` call, and
the `pthread_mutex_init` / `pthread_create` outcomes. -/
structure NewEnv where
  mallocOk : Bool
  routeTbl : Option (List RouteLine)
  routeErr : Int
  sockOk : Bool
  lanEnv : LanEnv
  mutexOk : Bool
  threadOk : Bool

/-- The default WAN server list seeded unconditionally by the constructor
(Google, Cloudflare, Quad9, OpenDNS, all on port 53). -/
def defaultServers : WanServers :=
  { s0 := ⟨"8.8.8.8", 53⟩, s1 := ⟨"1.1.1.1", 53⟩,
    s2 := ⟨"9.9.9.9", 53⟩, s3 := ⟨"208.67.222.222", 53⟩ }

/-- Lines 251: `initial_cfg && initial_cfg->timeout_ms > 0 ?
initial_cfg->timeout_ms : 1000`. -/
def initial_timeout (cfg : Option NetworkConfig) : Int :=
  match cfg with
  | some c => if c.timeout_ms > 0 then c.timeout_ms else 1000
  | none => 1000

/-- Line 252: the check interval with its default of 5 seconds. -/
def initial_interval (cfg : Option NetworkConfig) : Int :=
  match cfg with
  | some c => if c.check_interval_sec > 0 then c.check_interval_sec else 5
  | none => 5

/-- Lines 253-254: the proxy URL with its default of the empty string. -/
def initial_proxy (cfg : Option NetworkConfig) : String :=
  strcap 255 (match cfg with
    | some c => c.proxy_url.getD ""
    | none => "")

/-- Lines 256-272: the default server list, with the first entry overridden
when the configuration supplies a non-NULL host and a positive port. -/
def initial_servers (cfg : Option NetworkConfig) : WanServers :=
  match cfg with
  | some c => match c.wan_test_host with
    | some h =>
      if c.wan_test_port > 0 then
        { defaultServers with s0 := ⟨strcap 255 h, c.wan_test_port⟩ }
      else defaultServers
    | none => defaultServers
  | none => defaultServers

/-- Line 275: the explicitly configured interface, when the pointer is
non-NULL and the string non-empty (`initial_cfg->lan_interface &&
*initial_cfg->lan_interface`). -/
def initial_iface_cfg (cfg : Option NetworkConfig) : Option String :=
  match cfg with
  | some c => match c.lan_interface with
    | some s => if s ≠ "" then some s else none
    | none => none
  | none => none

/-- The monitor after configuration initialisation and LAN interface
resolution (lines 247-284), before validation: explicit interface if given,
else auto-detection with fallback to "lo". -/
def initial_monitor (cfg : Option NetworkConfig) (env : NewEnv) :
    NetworkMonitor :=
  let mon0 : NetworkMonitor :=
    { timeout_ms := initial_timeout cfg,
      check_interval_sec := initial_interval cfg,
      proxy_url := initial_proxy cfg, wan_servers := initial_servers cfg,
      num_wan_servers := 4, lan_interface := "", wan_up := false,
      lan_up := false, last_check_time := 0, last_error := 0,
      running := false }
  match initial_iface_cfg cfg with
  | some s => { mon0 with lan_interface := strcap (IF_NAMESIZE - 1) s }
  | none =>
    let d := detect_lan_interface env.routeTbl env.routeErr mon0
    if d.1 then d.2
    else { d.2 with lan_interface := strcap (IF_NAMESIZE - 1) "lo" }

/-- `network_monitor_new`: defaults overlaid with the supplied configuration,
LAN auto-detection when no explicit interface is given (falling back to
"lo"), validation of the resolved interface via `check_lan` (lines 287-293),
state initialisation (lines 296-300), mutex initialisation and thread spawn;
`none` models returning NULL. -/
def network_monitor_new (cfg : Option NetworkConfig) (env : NewEnv) :
    Option NetworkMonitor :=
  if env.mallocOk then
    let mon1 := initial_monitor cfg env
    if env.sockOk then
      let v := check_lan env.lanEnv mon1
      if v.1 then
        let mon2 : NetworkMonitor :=
          { v.2 with wan_up := false, lan_up := false, last_check_time := 0,
                     last_error := 0, running := true }
        if env.mutexOk then
          if env.threadOk then some mon2 else none
        else none
      else none
    else none
  else none

/-- One iteration of `monitor_thread_func`'s body past the running check:
run `check_wan` then `check_lan`, then publish both results and the
timestamp. -/
def monitor_cycle (wenv : WanEnv) (lenv : LanEnv) (now : Int)
    (mon : NetworkMonitor) : NetworkMonitor :=
  let w := check_wan wenv mon
  let l := check_lan lenv w.2.1
  { l.2 with wan_up := w.1, lan_up := l.1, last_check_time := now }

/-- The state change performed by `network_monitor_destroy` on the monitor's
fields: clear the running flag (the grace period and freeing are modelled
in the `Shutdown` section). -/
def destroy_signal (mon : NetworkMonitor) : NetworkMonitor :=
  { mon with running := false }

-- --- Shutdown interleaving model (network.c lines 207-232 and 324-333) ---

namespace Shutdown

/-- The status/flag fields shared between the monitor thread and the
destroying caller. -/
structure MonSt where
  wan_up : Bool
  lan_up : Bool
  last_check_time : Int
  last_error : Int
  running : Bool
deriving DecidableEq

/-- Program counter of `monitor_thread_func`: about to take the lock and
test `running` (`top`); past that test, executing `check_wan`/`check_lan`
(`midCycle`, which can last several seconds: up to
`3 * timeout + 700ms` backoff per failing server); sleeping for the
interval (`asleep`); or exited. -/
inductive TPc where
  | top
  | midCycle
  | asleep
  | exited
deriving DecidableEq

/-- Program counter of the caller running `network_monitor_destroy`:
before clearing `running` (`idle`); after clearing it (`signaled`); after
the fixed `usleep(100000)` grace period has elapsed (`graceDone`); after
`pthread_mutex_destroy` and `free` (`freed`). -/
inductive DPc where
  | idle
  | signaled
  | graceDone
  | freed
deriving DecidableEq

/-- Joint state of the shared fields and the two control threads. -/
structure Sys where
  st : MonSt
  tpc : TPc
  dpc : DPc
deriving DecidableEq

/-- The results the in-flight cycle will publish (produced by `check_wan`
and `check_lan`, plus `time(NULL)`). -/
structure CycleOutcome where
  newWan : Bool
  newLan : Bool
  newErr : Int
  now : Int

/-- Which thread of control takes the next step of the interleaving. -/
inductive Actor where
  | thread
  | destroyer
deriving DecidableEq

/-- One step of the monitor thread.  At `top` it takes the lock, tests
`running` and either enters the cycle or exits; at `midCycle` it finishes
the checks and publishes `wan_up`, `lan_up`, `last_check_time` (and the
checks' `last_error`) under the lock; at `asleep` it wakes and returns to
the top of the loop. -/
def threadStep (cr : CycleOutcome) (s : Sys) : Sys :=
  match s.tpc with
  | .top => if s.st.running then { s with tpc := .midCycle }
            else { s with tpc := .exited }
  | .midCycle =>
    { s with
        st := { s.st with wan_up := cr.newWan, lan_up := cr.newLan,
                          last_check_time := cr.now, last_error := cr.newErr },
        tpc := .asleep }
  | .asleep => { s with tpc := .top }
  | .exited => s

/-- One step of the destroying caller: clear `running` under the lock, let
the 100 ms grace period elapse, then destroy the mutex and free. -/
def destroyerStep (s : Sys) : Sys :=
  match s.dpc with
  | .idle => { s with st := { s.st with running := false }, dpc := .signaled }
  | .signaled => { s with dpc := .graceDone }
  | .graceDone => { s with dpc := .freed }
  | .freed => s

/-- Dispatch one step to the chosen actor. -/
def step (cr : CycleOutcome) (s : Sys) : Actor → Sys
  | .thread => threadStep cr s
  | .destroyer => destroyerStep s

/-- Run a schedule (an interleaving of the two threads of control). -/
def run (cr : CycleOutcome) (s : Sys) (sched : List Actor) : Sys :=
  sched.foldl (step cr) s

/-- A live monitor just before `network_monitor_destroy` is called, with
the thread at the top of its loop. -/
def init : Sys :=
  { st := { wan_up := false, lan_up := false, last_check_time := 0,
            last_error := 0, running := true },
    tpc := .top, dpc := .idle }

end Shutdown

-- --- Lock-discipline trace model (claim C4) ---

namespace LockModel

/-- The configuration and status fields of the `NetworkMonitor` struct. -/
inductive Field where
  | timeout_ms
  | check_interval_sec
  | proxy_url
  | wan_servers
  | num_wan_servers
  | lan_interface
  | wan_up
  | lan_up
  | last_check_time
  | last_error
  | running
deriving DecidableEq

/-- An atomic action of the module, annotated with whether the monitor's
mutex is held when it executes: a field read, a field write, or a network
I/O operation (`socket`, `setsockopt`, `connect`, `close`, `ioctl`,
`usleep`, `sleep`). -/
inductive CAct where
  | rd (f : Field) (locked : Bool)
  | wr (f : Field) (locked : Bool)
  | net (locked : Bool)
deriving DecidableEq

/-- Is the action a field access (read or write)? -/
def CAct.isAccess : CAct → Bool
  | .rd _ _ => true
  | .wr _ _ => true
  | .net _ => false

/-- Is the action a network I/O operation? -/
def CAct.isNet : CAct → Bool
  | .net _ => true
  | _ => false

/-- Is the mutex held during the action? -/
def CAct.locked : CAct → Bool
  | .rd _ l => l
  | .wr _ l => l
  | .net l => l

/-- Outcome of one server iteration in `check_wan`: socket creation fails,
the address fails to parse, the connect succeeds on retry `r` after `r`
failed attempts, or all three attempts fail. -/
inductive ServerOutcome where
  | sockFail
  | ptonFail
  | connectAt (r : Nat)
  | allFail

/-- Actions common to every server iteration that reaches the connect loop:
loop-bound read, server-entry read, `socket()`, timeout read, two
`setsockopt`s, and the port/host reads for the address — all without the
lock (`check_wan` never takes it). -/
def wanPre : List CAct :=
  [.rd .num_wan_servers false, .rd .wan_servers false, .net false,
   .rd .timeout_ms false, .net false, .net false,
   .rd .wan_servers false, .rd .wan_servers false]

/-- A failed connect attempt: `connect`, `last_error = errno`, backoff. -/
def wanAttemptFail : List CAct :=
  [.net false, .wr .last_error false, .net false]

/-- A successful connect attempt: `connect`, `close`, `last_error = 0`. -/
def wanAttemptSucc : List CAct :=
  [.net false, .net false, .wr .last_error false]

/-- The actions of one server iteration of `check_wan`. -/
def serverActs : ServerOutcome → List CAct
  | .sockFail =>
    [.rd .num_wan_servers false, .rd .wan_servers false, .net false,
     .wr .last_error false]
  | .ptonFail => wanPre ++ [.wr .last_error false, .net false]
  | .connectAt r => wanPre ++ (List.replicate r wanAttemptFail).flatten ++ wanAttemptSucc
  | .allFail => wanPre ++ (List.replicate 3 wanAttemptFail).flatten ++ [.net false]

/-- The actions of a `check_wan` run over the listed server outcomes;
a successful connect returns immediately. -/
def checkWanActs : List ServerOutcome → List CAct
  | [] => []
  | o :: rest =>
    serverActs o ++ (match o with
      | .connectAt _ => []
      | _ => checkWanActs rest)

/-- The actions of a `check_lan` run (`socket`, interface-name read,
`ioctl`, `close`, and the `last_error` update, which reads the old value
when the result is down) — all without the lock. -/
def checkLanActs (sockOk ioctlOk up : Bool) : List CAct :=
  if sockOk then
    if ioctlOk then
      [.net false, .rd .lan_interface false, .net false, .net false] ++
        (if up then [.wr .last_error false]
         else [.rd .last_error false, .wr .last_error false])
    else
      [.net false, .rd .lan_interface false, .net false,
       .wr .last_error false, .net false]
  else
    [.net false, .wr .last_error false]

/-- The actions of one iteration of `monitor_thread_func`: the running-flag
and interval reads under the lock, the two checks outside it, the status
publish under the lock, and the inter-cycle sleep outside it. -/
def cycleActs (outs : List ServerOutcome) (sockOk ioctlOk up : Bool) :
    List CAct :=
  [.rd .running true, .rd .check_interval_sec true] ++
    checkWanActs outs ++ checkLanActs sockOk ioctlOk up ++
    [.wr .wan_up true, .wr .lan_up true, .wr .last_check_time true] ++
    [.net false]

/-- The actions of a status getter (`get_wan_status` etc.): one locked
field read. -/
def getterActs (f : Field) : List CAct := [.rd f true]

/-- The actions of a configuration setter (`set_timeout_ms` etc.): one
locked field write. -/
def setterActs (f : Field) : List CAct := [.wr f true]

/-- The actions of `network_monitor_destroy` up to freeing: the locked
clear of `running`, then the grace-period `usleep` outside the lock. -/
def destroyActs : List CAct := [.wr .running true, .net false]

end LockModel

-- --- Sample values used by the witnesses ---

/-- A sample live monitor in its default configuration. -/
def monS : NetworkMonitor :=
  { timeout_ms := 1000, check_interval_sec := 5, proxy_url := "",
    wan_servers := defaultServers, num_wan_servers := 4,
    lan_interface := "eth0", wan_up := false, lan_up := false,
    last_check_time := 0, last_error := 0, running := true }

/-- A LAN environment whose flags query succeeds but reports the link-run
flag missing (`IFF_UP` set, `IFF_RUNNING` clear). -/
def lanEnvDown : LanEnv :=
  { sockOk := true, sockErr := 0, ioctlOk := true, ioctlErr := 0,
    ifr_flags := 0x1 }

/-- A LAN environment whose flags query succeeds with both flags set. -/
def lanEnvUp : LanEnv :=
  { sockOk := true, sockErr := 0, ioctlOk := true, ioctlErr := 0,
    ifr_flags := 0x41 }

-- --- Theorems ---

/-- Claim C8: the numeric configuration mutators clamp invalid input to the
documented defaults — `set_timeout_ms` with 0 or a negative argument yields
`timeout_ms = 1000`, `set_check_interval_sec` with a non-positive argument
yields `check_interval_sec = 5` — and after any such call both numeric
configuration fields are strictly positive (given the other field was). -/
theorem claim_C8 (mon : NetworkMonitor) (ms sec : Int) :
    (set_timeout_ms mon 0).timeout_ms = 1000 ∧
    (set_timeout_ms mon (-5)).timeout_ms = 1000 ∧
    (set_check_interval_sec mon 0).check_interval_sec = 5 ∧
    (ms ≤ 0 → (set_timeout_ms mon ms).timeout_ms = 1000) ∧
    (sec ≤ 0 → (set_check_interval_sec mon sec).check_interval_sec = 5) ∧
    (0 < mon.check_interval_sec →
      0 < (set_timeout_ms mon ms).timeout_ms ∧
      0 < (set_timeout_ms mon ms).check_interval_sec) ∧
    (0 < mon.timeout_ms →
      0 < (set_check_interval_sec mon sec).timeout_ms ∧
      0 < (set_check_interval_sec mon sec).check_interval_sec) := by
  simp only [set_timeout_ms, set_check_interval_sec]
  refine ⟨by norm_num, by norm_num, by norm_num, ?_, ?_, ?_, ?_⟩
  · intro h; rw [if_neg (by omega)]
  · intro h; rw [if_neg (by omega)]
  · intro h; exact ⟨by split <;> omega, h⟩
  · intro h; exact ⟨h, by split <;> omega⟩

/-- Witness for claim C8 at the sample monitor with the documented invalid
inputs 0 and −5. -/
theorem claim_C8_witness :
    (set_timeout_ms monS (-5)).timeout_ms = 1000 ∧
    (set_check_interval_sec monS 0).check_interval_sec = 5 ∧
    0 < (set_timeout_ms monS (-5)).timeout_ms ∧
    0 < (set_timeout_ms monS (-5)).check_interval_sec :=
  ⟨(claim_C8 monS (-5) 0).2.1,
   (claim_C8 monS (-5) 0).2.2.1,
   ((claim_C8 monS (-5) 0).2.2.2.2.2.1 (by decide)).1,
   ((claim_C8 monS (-5) 0).2.2.2.2.2.1 (by decide)).2⟩

/-- Claim C10: a NULL argument to a string mutator substitutes a fixed
default — `set_proxy(NULL)` stores the empty string, `set_wan_test_host(NULL)`
stores "8.8.8.8" as the primary WAN host, and `set_lan_interface(NULL)`
stores "eth0" — regardless of the previously configured values. -/
theorem claim_C10 (mon : NetworkMonitor) :
    (set_proxy mon none).proxy_url = "" ∧
    (set_wan_test_host mon none).wan_servers.s0.host = "8.8.8.8" ∧
    (set_lan_interface mon none).lan_interface = "eth0" :=
  ⟨rfl, rfl, rfl⟩

/-- Claim C6: `check_lan` returns true iff the flags query succeeds (both
the datagram socket and the `SIOCGIFFLAGS` ioctl) and both `IFF_UP` and
`IFF_RUNNING` are set in the reported flag bitset. -/
theorem claim_C6 (env : LanEnv) (mon : NetworkMonitor) :
    (check_lan env mon).1 = true ↔
      (env.sockOk = true ∧ env.ioctlOk = true ∧
       env.ifr_flags &&& IFF_UP ≠ 0 ∧ env.ifr_flags &&& IFF_RUNNING ≠ 0) := by
  unfold check_lan
  by_cases hs : env.sockOk
  · by_cases hi : env.ioctlOk
    · simp [hs, hi, Bool.and_eq_true, decide_eq_true_eq]
    · simp [hs, hi]
  · simp [hs]

/-- Claim C7: when the flags query succeeds, `check_lan` clears `last_error`
only on an UP result; on a DOWN result `last_error` is left exactly as it
was, so a stale code from an earlier failed check survives. -/
theorem claim_C7 (env : LanEnv) (mon : NetworkMonitor)
    (hs : env.sockOk = true) (hi : env.ioctlOk = true) :
    ((check_lan env mon).1 = true → (check_lan env mon).2.last_error = 0) ∧
    ((check_lan env mon).1 = false →
      (check_lan env mon).2.last_error = mon.last_error) := by
  cases hb : (decide (env.ifr_flags &&& IFF_UP ≠ 0) &&
      decide (env.ifr_flags &&& IFF_RUNNING ≠ 0)) with
  | false =>
    unfold check_lan
    simp only [hs, hi, if_true, hb, Bool.false_eq_true, false_implies,
      true_and, if_false]
    exact fun _ => trivial
  | true =>
    unfold check_lan
    simp only [hs, hi, if_true, hb, Bool.true_eq_false, false_implies,
      and_true, if_true]
    exact fun _ => trivial

/-- Witness for claim C7: a monitor holding a stale WAN error code 110
(`ETIMEDOUT`) keeps it across a LAN check whose query succeeds but reports
the link down. -/
theorem claim_C7_witness :
    (check_lan lanEnvDown { monS with last_error := 110 }).1 = false ∧
    (check_lan lanEnvDown { monS with last_error := 110 }).2.last_error = 110 :=
  ⟨by decide,
   (claim_C7 lanEnvDown { monS with last_error := 110 } rfl rfl).2 (by decide)⟩

/-- The scan of `detect_lan_interface` finds exactly the first parsed route
entry satisfying the qualification test. -/
theorem detectLoop_eq_find (lines : List RouteLine) :
    detectLoop lines = (lines.filterMap id).find? routeQualifies := by
  induction lines with
  | nil => rfl
  | cons l rest ih =>
    cases l with
    | none => simpa [detectLoop] using ih
    | some e =>
      by_cases h : routeQualifies e
      · simp [detectLoop, h, List.find?]
      · have hf : List.filterMap id (some e :: rest) = e :: List.filterMap id rest := by
          simp
        rw [hf, List.find?_cons_of_neg _ (by simp [h])]
        simpa [detectLoop, h] using ih

/-- Claim C5: `detect_lan_interface` returns the interface name of the
first route entry with destination 0.0.0.0, gateway and up flags set, and a
non-zero gateway; with no qualifying entry it returns no detection and
`last_error` ends at 0; if the routing table cannot be opened it fails with
`last_error` set to the OS error code. -/
theorem claim_C5 (tbl : Option (List RouteLine)) (openErr : Int)
    (mon : NetworkMonitor) :
    (tbl = none →
      (detect_lan_interface tbl openErr mon).1 = false ∧
      (detect_lan_interface tbl openErr mon).2.last_error = openErr ∧
      (detect_lan_interface tbl openErr mon).2.lan_interface =
        mon.lan_interface) ∧
    (∀ lines, tbl = some lines →
      (∀ e, (lines.filterMap id).find? routeQualifies = some e →
        (detect_lan_interface tbl openErr mon).1 = true ∧
        (detect_lan_interface tbl openErr mon).2.lan_interface =
          strcap (IF_NAMESIZE - 1) e.iface ∧
        (detect_lan_interface tbl openErr mon).2.last_error = 0) ∧
      ((lines.filterMap id).find? routeQualifies = none →
        (detect_lan_interface tbl openErr mon).1 = false ∧
        (detect_lan_interface tbl openErr mon).2.last_error = 0 ∧
        (detect_lan_interface tbl openErr mon).2.lan_interface =
          mon.lan_interface)) := by
  constructor
  · rintro rfl
    exact ⟨rfl, rfl, rfl⟩
  · rintro lines rfl
    constructor
    · intro e he
      have hd : detectLoop lines = some e := by
        rw [detectLoop_eq_find]; exact he
      simp [detect_lan_interface, hd]
    · intro he
      have hd : detectLoop lines = none := by
        rw [detectLoop_eq_find]; exact he
      simp [detect_lan_interface, hd]

/-- A sample routing table: an unparsable header line, a non-default route,
and a qualifying default route through interface `eth0`. -/
def routeTblS : List RouteLine :=
  [none,
   some { iface := "eth0", dest := 0x0000A8C0, gw := 0, flags := 0x0001 },
   some { iface := "eth0", dest := 0, gw := 0x0100A8C0, flags := 0x0003 }]

/-- Witness for claim C5: on the sample routing table, detection succeeds
and installs `eth0` with `last_error` 0; on an unopenable table it records
error code 13 (`EACCES`). -/
theorem claim_C5_witness :
    ((detect_lan_interface (some routeTblS) 13 monS).1 = true ∧
      (detect_lan_interface (some routeTblS) 13 monS).2.lan_interface =
        "eth0" ∧
      (detect_lan_interface (some routeTblS) 13 monS).2.last_error = 0) ∧
    (detect_lan_interface none 13 monS).2.last_error = 13 := by
  refine ⟨?_, ((claim_C5 none 13 monS).1 rfl).2.1⟩
  have h := ((claim_C5 (some routeTblS) 13 monS).2 routeTblS rfl).1
    { iface := "eth0", dest := 0, gw := 0x0100A8C0, flags := 0x0003 }
    (by decide)
  refine ⟨h.1, ?_, h.2.2⟩
  rw [h.2.1]
  rfl

/-- The server-list invariant of claim C9: the count is 4 and slots 1-3
hold the fixed default resolvers. -/
def wanListInv (mon : NetworkMonitor) : Prop :=
  mon.num_wan_servers = 4 ∧
  mon.wan_servers.s1 = { host := "1.1.1.1", port := 53 } ∧
  mon.wan_servers.s2 = { host := "9.9.9.9", port := 53 } ∧
  mon.wan_servers.s3 = { host := "208.67.222.222", port := 53 }

/-- `check_lan` touches no configuration field. -/
theorem check_lan_config (env : LanEnv) (mon : NetworkMonitor) :
    (check_lan env mon).2.wan_servers = mon.wan_servers ∧
    (check_lan env mon).2.num_wan_servers = mon.num_wan_servers := by
  unfold check_lan
  split
  · split
    · exact ⟨rfl, rfl⟩
    · exact ⟨rfl, rfl⟩
  · exact ⟨rfl, rfl⟩

/-- `detect_lan_interface` touches no WAN configuration field. -/
theorem detect_config (tbl : Option (List RouteLine)) (openErr : Int)
    (mon : NetworkMonitor) :
    (detect_lan_interface tbl openErr mon).2.wan_servers = mon.wan_servers ∧
    (detect_lan_interface tbl openErr mon).2.num_wan_servers =
      mon.num_wan_servers := by
  unfold detect_lan_interface
  cases tbl with
  | none => exact ⟨rfl, rfl⟩
  | some lines =>
    cases h : detectLoop lines with
    | some e => simp [h]
    | none => simp [h]

/-- The constructor's server initialisation never alters slots 1-3. -/
theorem initial_servers_tail (cfg : Option NetworkConfig) :
    (initial_servers cfg).s1 = defaultServers.s1 ∧
    (initial_servers cfg).s2 = defaultServers.s2 ∧
    (initial_servers cfg).s3 = defaultServers.s3 := by
  cases cfg with
  | none => exact ⟨rfl, rfl, rfl⟩
  | some c =>
    rcases hh : c.wan_test_host with _ | h
    · unfold initial_servers
      simp [hh]
    · unfold initial_servers
      by_cases hp : c.wan_test_port > 0
      · simp [hh, hp]
      · simp [hh, hp]

/-- Interface resolution leaves the WAN configuration of the freshly
initialised monitor intact. -/
theorem initial_monitor_config (cfg : Option NetworkConfig) (env : NewEnv) :
    (initial_monitor cfg env).wan_servers = initial_servers cfg ∧
    (initial_monitor cfg env).num_wan_servers = 4 := by
  unfold initial_monitor
  cases h : initial_iface_cfg cfg with
  | some s =>
    simp [h]
  | none =>
    simp only [h]
    split
    · exact ⟨(detect_config _ _ _).1, (detect_config _ _ _).2⟩
    · exact ⟨(detect_config _ _ _).1, (detect_config _ _ _).2⟩

/-- Claim C9: after successful construction the WAN server list holds
exactly 4 entries with slots 1-3 equal to the fixed defaults 1.1.1.1:53,
9.9.9.9:53, 208.67.222.222:53, and every operation of the module preserves
this (only slot 0 is ever modified); in particular the list is never
empty. -/
theorem claim_C9 :
    (∀ cfg env m, network_monitor_new cfg env = some m →
      wanListInv m ∧ 0 < m.num_wan_servers) ∧
    (∀ mon, wanListInv mon →
      (∀ h, wanListInv (set_wan_test_host mon h)) ∧
      (∀ p, wanListInv (set_wan_test_port mon p)) ∧
      (∀ a, wanListInv (set_timeout_ms mon a)) ∧
      (∀ a, wanListInv (set_check_interval_sec mon a)) ∧
      (∀ a, wanListInv (set_proxy mon a)) ∧
      (∀ a, wanListInv (set_lan_interface mon a)) ∧
      (∀ wenv, wanListInv (check_wan wenv mon).2.1) ∧
      (∀ lenv, wanListInv (check_lan lenv mon).2) ∧
      (∀ tbl oe, wanListInv (detect_lan_interface tbl oe mon).2) ∧
      (∀ wenv lenv t, wanListInv (monitor_cycle wenv lenv t mon)) ∧
      wanListInv (destroy_signal mon)) := by
  constructor
  · intro cfg env m h
    unfold network_monitor_new at h
    by_cases hm : env.mallocOk
    case neg => simp [hm] at h
    by_cases hsk : env.sockOk
    case neg => simp [hm, hsk] at h
    by_cases hv : (check_lan env.lanEnv (initial_monitor cfg env)).1
    case neg => simp [hm, hsk, hv] at h
    by_cases hmx : env.mutexOk
    case neg => simp [hm, hsk, hv, hmx] at h
    by_cases hth : env.threadOk
    case neg => simp [hm, hsk, hv, hmx, hth] at h
    simp only [hm, hsk, hv, hmx, hth, if_true, Option.some.injEq] at h
    subst h
    have hc := check_lan_config env.lanEnv (initial_monitor cfg env)
    have hi := initial_monitor_config cfg env
    have ht := initial_servers_tail cfg
    have hnum : (check_lan env.lanEnv (initial_monitor cfg env)).2.num_wan_servers = 4 := by
      rw [hc.2, hi.2]
    have hsrv : (check_lan env.lanEnv (initial_monitor cfg env)).2.wan_servers =
        initial_servers cfg := by
      rw [hc.1, hi.1]
    refine ⟨⟨hnum, ?_, ?_, ?_⟩, by rw [show ({ (check_lan env.lanEnv (initial_monitor cfg env)).2 with wan_up := false, lan_up := false, last_check_time := 0, last_error := 0, running := true } : NetworkMonitor).num_wan_servers = (check_lan env.lanEnv (initial_monitor cfg env)).2.num_wan_servers from rfl, hnum]; norm_num⟩
    · show (check_lan env.lanEnv (initial_monitor cfg env)).2.wan_servers.s1 = _
      rw [hsrv]; exact ht.1
    · show (check_lan env.lanEnv (initial_monitor cfg env)).2.wan_servers.s2 = _
      rw [hsrv]; exact ht.2.1
    · show (check_lan env.lanEnv (initial_monitor cfg env)).2.wan_servers.s3 = _
      rw [hsrv]; exact ht.2.2
  · intro mon hinv
    obtain ⟨h1, h2, h3, h4⟩ := hinv
    refine ⟨fun _ => ⟨h1, h2, h3, h4⟩, fun _ => ⟨h1, h2, h3, h4⟩,
      fun _ => ⟨h1, h2, h3, h4⟩, fun _ => ⟨h1, h2, h3, h4⟩,
      fun _ => ⟨h1, h2, h3, h4⟩, fun _ => ⟨h1, h2, h3, h4⟩,
      fun _ => ⟨h1, h2, h3, h4⟩, fun lenv => ?_, fun tbl oe => ?_,
      fun wenv lenv t => ?_, ⟨h1, h2, h3, h4⟩⟩
    · have hc := check_lan_config lenv mon
      exact ⟨by rw [hc.2]; exact h1, by rw [hc.1]; exact h2,
        by rw [hc.1]; exact h3, by rw [hc.1]; exact h4⟩
    · have hd := detect_config tbl oe mon
      exact ⟨by rw [hd.2]; exact h1, by rw [hd.1]; exact h2,
        by rw [hd.1]; exact h3, by rw [hd.1]; exact h4⟩
    · have hc := check_lan_config lenv (check_wan wenv mon).2.1
      unfold monitor_cycle
      exact ⟨by rw [hc.2]; exact h1, by rw [hc.1]; exact h2,
        by rw [hc.1]; exact h3, by rw [hc.1]; exact h4⟩

/-- An environment under which construction succeeds: allocation, the
validation socket, the mutex and the thread spawn all succeed, the sample
routing table yields `eth0`, and the interface reports both flags set. -/
def newEnvS : NewEnv :=
  { mallocOk := true, routeTbl := some routeTblS, routeErr := 0,
    sockOk := true, lanEnv := lanEnvUp, mutexOk := true, threadOk := true }

/-- Witness for claim C9: a concrete successful construction satisfies the
server-list invariant, and updating the primary host preserves it. -/
theorem claim_C9_witness :
    wanListInv ((network_monitor_new none newEnvS).getD monS) ∧
    0 < ((network_monitor_new none newEnvS).getD monS).num_wan_servers ∧
    wanListInv (set_wan_test_host
      ((network_monitor_new none newEnvS).getD monS) (some "10.0.0.1")) := by
  have heq : network_monitor_new none newEnvS =
      some ((network_monitor_new none newEnvS).getD monS) := by rfl
  have h := claim_C9.1 none newEnvS _ heq
  exact ⟨h.1, h.2, (claim_C9.2 _ h.1).1 (some "10.0.0.1")⟩

-- --- Claim C3: shutdown ---

/-- The cycle outcome of the sample failing schedule: the in-flight cycle
will publish WAN up, LAN up, error 0, timestamp 5. -/
def crS : Shutdown.CycleOutcome :=
  { newWan := true, newLan := true, newErr := 0, now := 5 }

/-- A realisable schedule: the monitor thread passes its running check and
is mid-cycle (a single failing WAN server alone takes 700 ms of backoff,
far more than the 100 ms grace) while the destroyer signals stop and its
grace period elapses. -/
def schedS : List Shutdown.Actor :=
  [.thread, .destroyer, .destroyer]

/-- Claim C3 fails on the code: with the monitor thread mid-cycle when
`network_monitor_destroy` clears the running flag and its fixed 100 ms
grace period elapses, the in-flight cycle still publishes afterwards, so a
status read taken well after the grace period differs from the read taken
immediately after it (and the write lands in freed memory). -/
theorem claim_C3_code_bug :
    (Shutdown.run crS Shutdown.init schedS).dpc = Shutdown.DPc.graceDone ∧
    (Shutdown.run crS Shutdown.init schedS).st ≠
      (Shutdown.run crS Shutdown.init
        (schedS ++ [Shutdown.Actor.thread])).st := by
  constructor
  · rfl
  · intro h
    have := congrArg Shutdown.MonSt.wan_up h
    simp [Shutdown.run, Shutdown.init, Shutdown.step, Shutdown.threadStep,
      Shutdown.destroyerStep, schedS, crS] at this

-- --- Claim C4: lock discipline ---

/-- Every action of one `check_wan` server iteration runs without the
lock. -/
theorem serverActs_unlocked (o : LockModel.ServerOutcome) :
    ∀ a ∈ LockModel.serverActs o, a.locked = false := by
  cases o with
  | sockFail => decide
  | ptonFail => decide
  | connectAt r =>
    intro a ha
    rcases List.mem_append.mp ha with h | h3
    · rcases List.mem_append.mp h with h1 | h2
      · exact (by decide : ∀ a ∈ LockModel.wanPre, a.locked = false) a h1
      · obtain ⟨l, hl, hal⟩ := List.mem_flatten.mp h2
        rw [List.eq_of_mem_replicate hl] at hal
        exact (by decide : ∀ a ∈ LockModel.wanAttemptFail, a.locked = false) a hal
    · exact (by decide : ∀ a ∈ LockModel.wanAttemptSucc, a.locked = false) a h3
  | allFail =>
    intro a ha
    rcases List.mem_append.mp ha with h | h3
    · rcases List.mem_append.mp h with h1 | h2
      · exact (by decide : ∀ a ∈ LockModel.wanPre, a.locked = false) a h1
      · obtain ⟨l, hl, hal⟩ := List.mem_flatten.mp h2
        rw [List.eq_of_mem_replicate hl] at hal
        exact (by decide : ∀ a ∈ LockModel.wanAttemptFail, a.locked = false) a hal
    · exact (by decide : ∀ a ∈ [LockModel.CAct.net false], a.locked = false) a h3

/-- Every action of a `check_wan` run happens without the lock. -/
theorem checkWanActs_unlocked (outs : List LockModel.ServerOutcome) :
    ∀ a ∈ LockModel.checkWanActs outs, a.locked = false := by
  induction outs with
  | nil => intro a ha; simp [LockModel.checkWanActs] at ha
  | cons o rest ih =>
    intro a ha
    cases o with
    | sockFail =>
      rcases List.mem_append.mp ha with h | h
      exacts [serverActs_unlocked _ a h, ih a h]
    | ptonFail =>
      rcases List.mem_append.mp ha with h | h
      exacts [serverActs_unlocked _ a h, ih a h]
    | allFail =>
      rcases List.mem_append.mp ha with h | h
      exacts [serverActs_unlocked _ a h, ih a h]
    | connectAt r =>
      rcases List.mem_append.mp ha with h | h
      · exact serverActs_unlocked _ a h
      · simp at h

/-- Every action of a `check_lan` run happens without the lock. -/
theorem checkLanActs_unlocked (so io up : Bool) :
    ∀ a ∈ LockModel.checkLanActs so io up, a.locked = false := by
  cases so <;> cases io <;> cases up <;> decide

/-- Claim C4 fails as stated: in the real monitor cycle (here one server
failing all its connect attempts, a successful flags query, link down) the
checks read configuration and write `last_error` without holding the
lock. -/
theorem claim_C4_counterexample :
    ¬ (∀ a ∈ LockModel.cycleActs [LockModel.ServerOutcome.allFail] true true false,
        a.isAccess = true → a.locked = true) := by
  decide

/-- Claim C4, amended to what the code does: the lock is never held across
any network I/O or sleep; accessor and mutator field accesses and the
destroy's flag write hold the lock; but every field access made inside
`check_wan` and `check_lan` (configuration reads and `last_error` writes)
happens without the lock. -/
theorem claim_C4 (outs : List LockModel.ServerOutcome) (so io up : Bool)
    (f : LockModel.Field) :
    (∀ a ∈ LockModel.cycleActs outs so io up,
      a.isNet = true → a.locked = false) ∧
    (∀ a ∈ LockModel.checkWanActs outs, a.locked = false) ∧
    (∀ a ∈ LockModel.checkLanActs so io up, a.locked = false) ∧
    (∀ a ∈ LockModel.getterActs f, a.locked = true ∧ a.isAccess = true) ∧
    (∀ a ∈ LockModel.setterActs f, a.locked = true ∧ a.isAccess = true) ∧
    (∀ a ∈ LockModel.destroyActs, a.isNet = true → a.locked = false) := by
  refine ⟨?_, checkWanActs_unlocked outs, checkLanActs_unlocked so io up,
    ?_, ?_, by decide⟩
  · simp only [LockModel.cycleActs, List.forall_mem_append]
    exact ⟨⟨⟨⟨by decide, fun a h _ => checkWanActs_unlocked outs a h⟩,
      fun a h _ => checkLanActs_unlocked so io up a h⟩, by decide⟩, by decide⟩
  · intro a ha
    rcases List.mem_cons.mp ha with h | h
    · subst h; exact ⟨rfl, rfl⟩
    · cases h
  · intro a ha
    rcases List.mem_cons.mp ha with h | h
    · subst h; exact ⟨rfl, rfl⟩
    · cases h

/-- Witness for claim C4: the getter of `wan_up` performs its read under
the lock. -/
theorem claim_C4_witness :
    (LockModel.CAct.rd LockModel.Field.wan_up true).locked = true ∧
    (LockModel.CAct.rd LockModel.Field.wan_up true).isAccess = true :=
  (claim_C4 [] true true false LockModel.Field.wan_up).2.2.2.1
    (LockModel.CAct.rd LockModel.Field.wan_up true) (by decide)

-- --- Claims C1/C2: the WAN probe ---

/-- `lastD` over a cons restarts with the head as default. -/
theorem lastD_cons (x : Int) (l : List Int) (d : Int) :
    lastD (x :: l) d = lastD l x := rfl

/-- `lastD` over an append chains the defaults. -/
theorem lastD_append (l1 l2 : List Int) (d : Int) :
    lastD (l1 ++ l2) d = lastD l2 (lastD l1 d) := by
  simp [lastD, List.foldl_append]

/-- The retry loop succeeds iff some retry index in its window has a
successful connect. -/
theorem connectRetries_one_iff (env : WanEnv) (i : Nat) :
    ∀ fuel r e, ((connectRetries env i e r fuel).1 = true ↔
      ∃ k, r ≤ k ∧ k < r + fuel ∧ env.connectOk i k = true) := by
  intro fuel
  induction fuel with
  | zero =>
    intro r e
    constructor
    · intro h; exact absurd h (by simp [connectRetries])
    · rintro ⟨k, h1, h2, _⟩; omega
  | succ fuel ih =>
    intro r e
    by_cases hc : env.connectOk i r = true
    · simp only [connectRetries, hc, if_true]
      constructor
      · intro _; exact ⟨r, Nat.le_refl r, by omega, hc⟩
      · intro _; trivial
    · rw [Bool.not_eq_true] at hc
      simp only [connectRetries, hc, Bool.false_eq_true, if_false]
      rw [ih (r + 1) (env.connectErr i r)]
      constructor
      · rintro ⟨k, h1, h2, h3⟩
        exact ⟨k, by omega, by omega, h3⟩
      · rintro ⟨k, h1, h2, h3⟩
        rcases Nat.eq_or_lt_of_le h1 with heq | hlt
        · rw [← heq] at h3; rw [h3] at hc; cases hc
        · exact ⟨k, hlt, by omega, h3⟩

/-- The result of one server iteration is exactly `serverSucc`. -/
theorem tryServer_one (env : WanEnv) (i : Nat) (e : Int) :
    (tryServer env i e).1 = serverSucc env i := by
  by_cases hs : env.sockOk i = true
  · by_cases hp : env.ptonOk i = true
    · unfold tryServer serverSucc
      rw [if_pos hs, if_pos hp, hs, hp, Bool.true_and, Bool.true_and]
      rw [Bool.eq_iff_iff, connectRetries_one_iff, List.any_eq_true]
      constructor
      · rintro ⟨k, _, h2, h3⟩
        exact ⟨k, List.mem_range.mpr (by omega), h3⟩
      · rintro ⟨k, hk, h3⟩
        exact ⟨k, Nat.zero_le k, by simpa using List.mem_range.mp hk, h3⟩
    · rw [Bool.not_eq_true] at hp
      unfold tryServer serverSucc
      simp [hs, hp]
  · rw [Bool.not_eq_true] at hs
    unfold tryServer serverSucc
    simp [hs]

/-- A successful retry loop leaves the error code cleared. -/
theorem connectRetries_err_zero (env : WanEnv) (i : Nat) :
    ∀ fuel r e, (connectRetries env i e r fuel).1 = true →
      (connectRetries env i e r fuel).2.1 = 0 := by
  intro fuel
  induction fuel with
  | zero => intro r e h; exact absurd h (by simp [connectRetries])
  | succ fuel ih =>
    intro r e h
    by_cases hc : env.connectOk i r = true
    · simp [connectRetries, hc]
    · rw [Bool.not_eq_true] at hc
      simp only [connectRetries, hc, Bool.false_eq_true, if_false] at h ⊢
      exact ih (r + 1) (env.connectErr i r) h

/-- A successful server iteration leaves the error code cleared. -/
theorem tryServer_err_zero (env : WanEnv) (i : Nat) (e : Int) :
    (tryServer env i e).1 = true → (tryServer env i e).2.1 = 0 := by
  unfold tryServer
  split
  · split
    · exact connectRetries_err_zero env i 3 0 e
    · intro h; exact absurd h (by simp)
  · intro h; exact absurd h (by simp)

/-- A fully failing retry loop ends with the error code of its last
attempt. -/
theorem connectRetries_fail_err (env : WanEnv) (i : Nat) :
    ∀ fuel r e, (connectRetries env i e r fuel).1 = false →
      (connectRetries env i e r fuel).2.1 =
        lastD ((List.range' r fuel).map (env.connectErr i)) e := by
  intro fuel
  induction fuel with
  | zero => intro r e _; rfl
  | succ fuel ih =>
    intro r e h
    by_cases hc : env.connectOk i r = true
    · simp [connectRetries, hc] at h
    · rw [Bool.not_eq_true] at hc
      simp only [connectRetries, hc, Bool.false_eq_true, if_false] at h ⊢
      rw [List.range'_succ r fuel 1, List.map_cons, lastD_cons]
      exact ih (r + 1) (env.connectErr i r) h

/-- A fully failing server iteration ends with the last of its recorded
failure codes. -/
theorem tryServer_fail_err (env : WanEnv) (i : Nat) (e : Int) :
    (tryServer env i e).1 = false →
      (tryServer env i e).2.1 = lastD (serverFailCodes env i) e := by
  by_cases hs : env.sockOk i = true
  · by_cases hp : env.ptonOk i = true
    · unfold tryServer serverFailCodes
      rw [if_pos hs, if_pos hp, if_pos hs, if_pos hp]
      intro h
      rw [connectRetries_fail_err env i 3 0 e h, List.range_eq_range']
    · rw [Bool.not_eq_true] at hp
      unfold tryServer serverFailCodes
      simp [hs, hp, lastD]
  · rw [Bool.not_eq_true] at hs
    unfold tryServer serverFailCodes
    simp [hs, lastD]

/-- The server loop succeeds iff some not-yet-visited server would
succeed. -/
theorem checkWanFrom_one_iff (env : WanEnv) (n : Nat) :
    ∀ fuel i e, n ≤ i + fuel →
      ((checkWanFrom env n i e fuel).1 = true ↔
        ∃ j, i ≤ j ∧ j < n ∧ serverSucc env j = true) := by
  intro fuel
  induction fuel with
  | zero =>
    intro i e hle
    constructor
    · intro h; exact absurd h (by simp [checkWanFrom])
    · rintro ⟨j, h1, h2, _⟩; omega
  | succ fuel ih =>
    intro i e hle
    by_cases hin : i < n
    · cases ht : (tryServer env i e).1 with
      | true =>
        have hres : (checkWanFrom env n i e (fuel + 1)).1 = true := by
          simp only [checkWanFrom, if_pos hin, ht, if_true]
        rw [hres]
        constructor
        · intro _
          exact ⟨i, Nat.le_refl i, hin, by rw [← tryServer_one env i e]; exact ht⟩
        · intro _; trivial
      | false =>
        have hres : (checkWanFrom env n i e (fuel + 1)).1 =
            (checkWanFrom env n (i + 1) (tryServer env i e).2.1 fuel).1 := by
          simp only [checkWanFrom, if_pos hin, ht, Bool.false_eq_true, if_false]
        rw [hres, ih (i + 1) (tryServer env i e).2.1 (by omega)]
        have hsf : serverSucc env i = false := by
          rw [← tryServer_one env i e]; exact ht
        constructor
        · rintro ⟨j, h1, h2, h3⟩
          exact ⟨j, by omega, h2, h3⟩
        · rintro ⟨j, h1, h2, h3⟩
          rcases Nat.eq_or_lt_of_le h1 with heq | hlt
          · rw [← heq] at h3; rw [h3] at hsf; cases hsf
          · exact ⟨j, hlt, h2, h3⟩
    · have hres : (checkWanFrom env n i e (fuel + 1)).1 = false := by
        simp only [checkWanFrom, if_neg hin]
      rw [hres]
      constructor
      · intro h; cases h
      · rintro ⟨j, h1, h2, _⟩; omega

/-- A successful server loop leaves the error code cleared. -/
theorem checkWanFrom_err_zero (env : WanEnv) (n : Nat) :
    ∀ fuel i e, (checkWanFrom env n i e fuel).1 = true →
      (checkWanFrom env n i e fuel).2.1 = 0 := by
  intro fuel
  induction fuel with
  | zero => intro i e h; exact absurd h (by simp [checkWanFrom])
  | succ fuel ih =>
    intro i e h
    by_cases hin : i < n
    · cases ht : (tryServer env i e).1 with
      | true =>
        simp only [checkWanFrom, if_pos hin, ht, if_true]
        exact tryServer_err_zero env i e ht
      | false =>
        simp only [checkWanFrom, if_pos hin, ht, Bool.false_eq_true, if_false] at h ⊢
        exact ih (i + 1) (tryServer env i e).2.1 h
    · simp only [checkWanFrom, if_neg hin] at h
      cases h

/-- A fully failing server loop ends with the most recent of the recorded
failure codes. -/
theorem checkWanFrom_fail_err (env : WanEnv) (n : Nat) :
    ∀ fuel i e, (checkWanFrom env n i e fuel).1 = false →
      (checkWanFrom env n i e fuel).2.1 =
        lastD (failCodesFrom env n i fuel) e := by
  intro fuel
  induction fuel with
  | zero => intro i e _; rfl
  | succ fuel ih =>
    intro i e h
    by_cases hin : i < n
    · cases ht : (tryServer env i e).1 with
      | true =>
        exfalso
        simp only [checkWanFrom, if_pos hin, ht, if_true] at h
        cases h
      | false =>
        simp only [checkWanFrom, if_pos hin, ht, Bool.false_eq_true,
          if_false] at h ⊢
        rw [ih (i + 1) (tryServer env i e).2.1 h]
        rw [show failCodesFrom env n i (fuel + 1) =
          serverFailCodes env i ++ failCodesFrom env n (i + 1) fuel from by
            simp only [failCodesFrom, if_pos hin]]
        rw [lastD_append, tryServer_fail_err env i e ht]
    · simp only [checkWanFrom, if_neg hin]
      rw [show failCodesFrom env n i (fuel + 1) = [] from by
        simp only [failCodesFrom, if_neg hin]]
      rfl

/-- A successful retry loop's trace is some failed attempts followed by
exactly one final successful attempt. -/
theorem connectRetries_succ_events (env : WanEnv) (i : Nat) :
    ∀ fuel r e, (connectRetries env i e r fuel).1 = true →
      ∃ pre k, (connectRetries env i e r fuel).2.2 =
          pre ++ [WanEvent.attempt i k true] ∧
        ∀ ev ∈ pre, ev.isSucc = false := by
  intro fuel
  induction fuel with
  | zero => intro r e h; exact absurd h (by simp [connectRetries])
  | succ fuel ih =>
    intro r e h
    by_cases hc : env.connectOk i r = true
    · refine ⟨[], r, ?_, by intro ev hev; cases hev⟩
      simp [connectRetries, hc]
    · rw [Bool.not_eq_true] at hc
      simp only [connectRetries, hc, Bool.false_eq_true, if_false] at h ⊢
      obtain ⟨pre, k, hev, hpre⟩ := ih (r + 1) (env.connectErr i r) h
      refine ⟨WanEvent.attempt i r false :: WanEvent.backoff i (100000 <<< r) :: pre,
        k, by rw [hev]; simp, ?_⟩
      intro ev hev'
      rcases hev' with _ | ⟨_, hev'⟩
      · rfl
      · rcases hev' with _ | ⟨_, hev'⟩
        · rfl
        · exact hpre ev hev'

/-- A failing retry loop's trace contains no successful attempt. -/
theorem connectRetries_fail_events (env : WanEnv) (i : Nat) :
    ∀ fuel r e, (connectRetries env i e r fuel).1 = false →
      ∀ ev ∈ (connectRetries env i e r fuel).2.2, ev.isSucc = false := by
  intro fuel
  induction fuel with
  | zero => intro r e _ ev hev; exact absurd hev (by simp [connectRetries])
  | succ fuel ih =>
    intro r e h ev hev
    by_cases hc : env.connectOk i r = true
    · simp [connectRetries, hc] at h
    · rw [Bool.not_eq_true] at hc
      simp only [connectRetries, hc, Bool.false_eq_true, if_false] at h hev
      rcases hev with _ | ⟨_, hev⟩
      · rfl
      · rcases hev with _ | ⟨_, hev⟩
        · rfl
        · exact ih (r + 1) (env.connectErr i r) h ev hev

/-- A successful server iteration's trace ends with its one successful
attempt. -/
theorem tryServer_succ_events (env : WanEnv) (i : Nat) (e : Int) :
    (tryServer env i e).1 = true →
      ∃ pre k, (tryServer env i e).2.2 = pre ++ [WanEvent.attempt i k true] ∧
        ∀ ev ∈ pre, ev.isSucc = false := by
  unfold tryServer
  split
  · split
    · exact connectRetries_succ_events env i 3 0 e
    · intro h; exact absurd h (by simp)
  · intro h; exact absurd h (by simp)

/-- A failing server iteration's trace contains no successful attempt. -/
theorem tryServer_fail_events (env : WanEnv) (i : Nat) (e : Int) :
    (tryServer env i e).1 = false →
      ∀ ev ∈ (tryServer env i e).2.2, ev.isSucc = false := by
  unfold tryServer
  split
  · split
    · exact connectRetries_fail_events env i 3 0 e
    · intro _ ev hev; cases hev
  · intro _ ev hev; cases hev

/-- Every event of a server iteration is tagged with that server. -/
theorem tryServer_events_server (env : WanEnv) (i : Nat) (e : Int) :
    ∀ ev ∈ (tryServer env i e).2.2, ev.server = i := by
  have hcr : ∀ fuel r e', ∀ ev ∈ (connectRetries env i e' r fuel).2.2,
      ev.server = i := by
    intro fuel
    induction fuel with
    | zero => intro r e' ev hev; exact absurd hev (by simp [connectRetries])
    | succ fuel ih =>
      intro r e' ev hev
      by_cases hc : env.connectOk i r = true
      · simp only [connectRetries, hc, if_true] at hev
        rcases hev with _ | ⟨_, hev⟩
        · rfl
        · cases hev
      · rw [Bool.not_eq_true] at hc
        simp only [connectRetries, hc, Bool.false_eq_true, if_false] at hev
        rcases hev with _ | ⟨_, hev⟩
        · rfl
        · rcases hev with _ | ⟨_, hev⟩
          · rfl
          · exact ih (r + 1) (env.connectErr i r) ev hev
  unfold tryServer
  split
  · split
    · exact hcr 3 0 e
    · intro ev hev; cases hev
  · intro ev hev; cases hev

/-- Every event of the loop from server `i` on belongs to a server `≥ i`. -/
theorem checkWanFrom_events_server (env : WanEnv) (n : Nat) :
    ∀ fuel i e, ∀ ev ∈ (checkWanFrom env n i e fuel).2.2, i ≤ ev.server := by
  intro fuel
  induction fuel with
  | zero => intro i e ev hev; exact absurd hev (by simp [checkWanFrom])
  | succ fuel ih =>
    intro i e ev hev
    by_cases hin : i < n
    · cases ht : (tryServer env i e).1 with
      | true =>
        simp only [checkWanFrom, if_pos hin, ht, if_true] at hev
        rw [tryServer_events_server env i e ev hev]
      | false =>
        simp only [checkWanFrom, if_pos hin, ht, Bool.false_eq_true,
          if_false] at hev
        rcases List.mem_append.mp hev with h | h
        · rw [tryServer_events_server env i e ev h]
        · have := ih (i + 1) (tryServer env i e).2.1 ev h
          omega
    · simp only [checkWanFrom, if_neg hin] at hev
      cases hev

/-- A successful run's trace is some failed attempts and backoffs followed
by exactly one final successful attempt (the probe returns immediately). -/
theorem checkWanFrom_succ_events (env : WanEnv) (n : Nat) :
    ∀ fuel i e, (checkWanFrom env n i e fuel).1 = true →
      ∃ pre j k, (checkWanFrom env n i e fuel).2.2 =
          pre ++ [WanEvent.attempt j k true] ∧
        ∀ ev ∈ pre, ev.isSucc = false := by
  intro fuel
  induction fuel with
  | zero => intro i e h; exact absurd h (by simp [checkWanFrom])
  | succ fuel ih =>
    intro i e h
    by_cases hin : i < n
    · cases ht : (tryServer env i e).1 with
      | true =>
        simp only [checkWanFrom, if_pos hin, ht, if_true]
        obtain ⟨pre, k, hev, hpre⟩ := tryServer_succ_events env i e ht
        exact ⟨pre, i, k, hev, hpre⟩
      | false =>
        simp only [checkWanFrom, if_pos hin, ht, Bool.false_eq_true,
          if_false] at h ⊢
        obtain ⟨pre, j, k, hev, hpre⟩ := ih (i + 1) (tryServer env i e).2.1 h
        refine ⟨(tryServer env i e).2.2 ++ pre, j, k, ?_, ?_⟩
        · rw [hev, List.append_assoc]
        · intro ev hev'
          rcases List.mem_append.mp hev' with h' | h'
          · exact tryServer_fail_events env i e ht ev h'
          · exact hpre ev h'
    · exfalso
      simp only [checkWanFrom, if_neg hin] at h
      cases h

/-- A failing run's trace contains no successful attempt. -/
theorem checkWanFrom_fail_events (env : WanEnv) (n : Nat) :
    ∀ fuel i e, (checkWanFrom env n i e fuel).1 = false →
      ∀ ev ∈ (checkWanFrom env n i e fuel).2.2, ev.isSucc = false := by
  intro fuel
  induction fuel with
  | zero => intro i e _ ev hev; exact absurd hev (by simp [checkWanFrom])
  | succ fuel ih =>
    intro i e h ev hev
    by_cases hin : i < n
    · cases ht : (tryServer env i e).1 with
      | true =>
        exfalso
        simp only [checkWanFrom, if_pos hin, ht, if_true] at h
        cases h
      | false =>
        simp only [checkWanFrom, if_pos hin, ht, Bool.false_eq_true,
          if_false] at h hev
        rcases List.mem_append.mp hev with h' | h'
        · exact tryServer_fail_events env i e ht ev h'
        · exact ih (i + 1) (tryServer env i e).2.1 h ev h'
    · simp only [checkWanFrom, if_neg hin] at hev
      cases hev

/-- The six-event trace of one completely failing server: three failed
attempts, each followed by its backoff of 100 ms, 200 ms, 400 ms. -/
def fullFailTrace (i : Nat) : List WanEvent :=
  [WanEvent.attempt i 0 false, WanEvent.backoff i 100000,
   WanEvent.attempt i 1 false, WanEvent.backoff i 200000,
   WanEvent.attempt i 2 false, WanEvent.backoff i 400000]

/-- A server whose three connect attempts all fail produces exactly the
six-event full-failure trace. -/
theorem tryServer_full_fail (env : WanEnv) (i : Nat) (e : Int)
    (hs : env.sockOk i = true) (hp : env.ptonOk i = true)
    (hf : ∀ k, k < 3 → env.connectOk i k = false) :
    (tryServer env i e).2.2 = fullFailTrace i := by
  unfold tryServer
  rw [if_pos hs, if_pos hp]
  simp only [connectRetries, hf 0 (by omega), hf 1 (by omega),
    hf 2 (by omega), Bool.false_eq_true, if_false, fullFailTrace]
  norm_num [Nat.shiftLeft_eq]

/-- A server whose three connect attempts all fail does not succeed. -/
theorem serverSucc_full_fail (env : WanEnv) (i : Nat)
    (hf : ∀ k, k < 3 → env.connectOk i k = false) :
    serverSucc env i = false := by
  unfold serverSucc
  rcases hso : env.sockOk i with _ | _
  · rfl
  · rcases hpo : env.ptonOk i with _ | _
    · rfl
    · simp only [Bool.true_and]
      rw [List.any_eq_false]
      intro k hk
      rw [hf k (by simpa using List.mem_range.mp hk)]
      simp

/-- When every server before `i'` fails and server `i'` itself fails all
three connects, the events of the loop attributed to server `i'` are
exactly the six-event full-failure trace. -/
theorem checkWanFrom_filter_full_fail (env : WanEnv) (n i' : Nat)
    (hs : env.sockOk i' = true) (hp : env.ptonOk i' = true)
    (hf : ∀ k, k < 3 → env.connectOk i' k = false) :
    ∀ fuel i e, n ≤ i + fuel → i ≤ i' → i' < n →
      (∀ j, i ≤ j → j < i' → serverSucc env j = false) →
      ((checkWanFrom env n i e fuel).2.2).filter
          (fun ev => ev.server == i') = fullFailTrace i' := by
  intro fuel
  induction fuel with
  | zero => intro i e h1 h2 h3 _; omega
  | succ fuel ih =>
    intro i e h1 h2 h3 hpre
    have hin : i < n := by omega
    rcases Nat.eq_or_lt_of_le h2 with heq | hlt
    · subst heq
      have hsf : serverSucc env i = false := serverSucc_full_fail env i hf
      have ht : (tryServer env i e).1 = false := by
        rw [tryServer_one env i e]; exact hsf
      simp only [checkWanFrom, if_pos hin, ht, Bool.false_eq_true, if_false]
      rw [List.filter_append]
      have h5 : ((checkWanFrom env n (i + 1) (tryServer env i e).2.1
          fuel).2.2).filter (fun ev => ev.server == i) = [] := by
        rw [List.filter_eq_nil_iff]
        intro ev hev
        have := checkWanFrom_events_server env n fuel (i + 1)
          (tryServer env i e).2.1 ev hev
        simp only [beq_iff_eq]
        omega
      rw [h5, List.append_nil, tryServer_full_fail env i e hs hp hf]
      simp [fullFailTrace, WanEvent.server]
    · have hsf : serverSucc env i = false := hpre i (Nat.le_refl i) hlt
      have ht : (tryServer env i e).1 = false := by
        rw [tryServer_one env i e]; exact hsf
      simp only [checkWanFrom, if_pos hin, ht, Bool.false_eq_true, if_false]
      rw [List.filter_append]
      have h4 : ((tryServer env i e).2.2).filter
          (fun ev => ev.server == i') = [] := by
        rw [List.filter_eq_nil_iff]
        intro ev hev
        have := tryServer_events_server env i e ev hev
        simp only [beq_iff_eq]
        omega
      rw [h4, List.nil_append]
      exact ih (i + 1) (tryServer env i e).2.1 (by omega) hlt h3
        (fun j hj1 hj2 => hpre j (by omega) hj2)

/-- Claim C1: `check_wan` returns true iff some server's connect attempt
succeeds (servers probed in list order); on the first success it clears
`last_error` and returns immediately (the trace ends at that success); if
all servers and retries fail it returns false with `last_error` holding the
most recent failure code. -/
theorem claim_C1 (env : WanEnv) (mon : NetworkMonitor) :
    ((check_wan env mon).1 = true ↔
      ∃ i, i < mon.num_wan_servers ∧ serverSucc env i = true) ∧
    ((check_wan env mon).1 = true → (check_wan env mon).2.1.last_error = 0) ∧
    ((check_wan env mon).1 = false → (check_wan env mon).2.1.last_error =
      lastD (failCodesFrom env mon.num_wan_servers 0 mon.num_wan_servers)
        mon.last_error) ∧
    ((check_wan env mon).1 = true → ∃ pre j k,
      (check_wan env mon).2.2 = pre ++ [WanEvent.attempt j k true] ∧
      ∀ ev ∈ pre, ev.isSucc = false) ∧
    ((check_wan env mon).1 = false →
      ∀ ev ∈ (check_wan env mon).2.2, ev.isSucc = false) := by
  refine ⟨?_, ?_, ?_, ?_, ?_⟩
  · show (checkWanFrom env mon.num_wan_servers 0 mon.last_error
      mon.num_wan_servers).1 = true ↔ _
    rw [checkWanFrom_one_iff env mon.num_wan_servers mon.num_wan_servers 0
      mon.last_error (by omega)]
    constructor
    · rintro ⟨j, _, h2, h3⟩; exact ⟨j, h2, h3⟩
    · rintro ⟨j, h2, h3⟩; exact ⟨j, Nat.zero_le j, h2, h3⟩
  · intro h
    exact checkWanFrom_err_zero env mon.num_wan_servers mon.num_wan_servers 0
      mon.last_error h
  · intro h
    exact checkWanFrom_fail_err env mon.num_wan_servers mon.num_wan_servers 0
      mon.last_error h
  · intro h
    exact checkWanFrom_succ_events env mon.num_wan_servers mon.num_wan_servers
      0 mon.last_error h
  · intro h
    exact checkWanFrom_fail_events env mon.num_wan_servers mon.num_wan_servers
      0 mon.last_error h

/-- A WAN environment where server 1 accepts on its second retry and every
other connect attempt fails. -/
def envW : WanEnv :=
  { sockOk := fun _ => true, sockErr := fun _ => 0,
    ptonOk := fun _ => true, ptonErr := fun _ => 0,
    connectOk := fun i r => i == 1 && r == 1,
    connectErr := fun _ _ => 110 }

/-- A WAN environment where every connect attempt fails with a code
identifying the attempt. -/
def envF : WanEnv :=
  { sockOk := fun _ => true, sockErr := fun _ => 0,
    ptonOk := fun _ => true, ptonErr := fun _ => 0,
    connectOk := fun _ _ => false,
    connectErr := fun i r => 100 + (i : Int) + (r : Int) }

/-- Witness for claim C1: with server 1 reachable the probe reports up and
clears the error; with no server reachable it reports down with the last
failure code (server 3, retry 2: code 105). -/
theorem claim_C1_witness :
    ((check_wan envW monS).1 = true ∧
      (check_wan envW monS).2.1.last_error = 0) ∧
    ((check_wan envF monS).1 = false ∧
      (check_wan envF monS).2.1.last_error =
        lastD (failCodesFrom envF 4 0 4) 0 ∧
      lastD (failCodesFrom envF 4 0 4) 0 = 105) := by
  have h1 : (check_wan envW monS).1 = true := by decide
  have h2 : (check_wan envF monS).1 = false := by decide
  exact ⟨⟨h1, (claim_C1 envW monS).2.1 h1⟩,
    ⟨h2, (claim_C1 envF monS).2.2.1 h2, by decide⟩⟩

/-- Claim C2: a reached server whose connect attempts all fail is attempted
exactly 3 times, with backoffs of 100 ms, 200 ms and 400 ms following the
attempts, before the probe moves to the next server: its slice of the event
trace is exactly attempt, 100 ms, attempt, 200 ms, attempt, 400 ms. -/
theorem claim_C2 (env : WanEnv) (mon : NetworkMonitor) (i : Nat)
    (hi : i < mon.num_wan_servers)
    (hreach : ∀ j, j < i → serverSucc env j = false)
    (hs : env.sockOk i = true) (hp : env.ptonOk i = true)
    (hf : ∀ k, k < 3 → env.connectOk i k = false) :
    ((check_wan env mon).2.2).filter (fun ev => ev.server == i) =
      [WanEvent.attempt i 0 false, WanEvent.backoff i 100000,
       WanEvent.attempt i 1 false, WanEvent.backoff i 200000,
       WanEvent.attempt i 2 false, WanEvent.backoff i 400000] :=
  checkWanFrom_filter_full_fail env mon.num_wan_servers i hs hp hf
    mon.num_wan_servers 0 mon.last_error (by omega) (Nat.zero_le i) hi
    (fun j _ hj => hreach j hj)

/-- Witness for claim C2: in the all-fail environment, server 0's slice of
the trace is the exact six-event sequence. -/
theorem claim_C2_witness :
    ((check_wan envF monS).2.2).filter (fun ev => ev.server == 0) =
      [WanEvent.attempt 0 0 false, WanEvent.backoff 0 100000,
       WanEvent.attempt 0 1 false, WanEvent.backoff 0 200000,
       WanEvent.attempt 0 2 false, WanEvent.backoff 0 400000] :=
  claim_C2 envF monS 0 (by decide)
    (fun j hj => absurd hj (Nat.not_lt_zero j)) rfl rfl (fun _ _ => rfl)

/-- Witness for claim C6: with both flags set the LAN check reports up. -/
theorem claim_C6_witness : (check_lan lanEnvUp monS).1 = true :=
  (claim_C6 lanEnvUp monS).mpr ⟨rfl, rfl, by decide, by decide⟩

/-- Witness for claim C10: the NULL defaults at the sample monitor. -/
theorem claim_C10_witness :
    (set_proxy monS none).proxy_url = "" ∧
    (set_wan_test_host monS none).wan_servers.s0.host = "8.8.8.8" ∧
    (set_lan_interface monS none).lan_interface = "eth0" :=
  claim_C10 monS

end NetworkC
